import Mathlib

/-!
Verification of `src/main.py` of canvas-calendar-export: a shallow embedding
of its pure data pipeline (pagination, date normalization, assignment
collection, text formatting, calendar export, and the top-level control
flow), with theorems settling the specification's claims.

Network and library effects are abstracted: the sequence of HTTP responses a
server will give is passed as data, and the two `dateutil` entry points
(`isoparse ∘ astimezone ∘ strftime` used for display, `parse` used for the
calendar) are passed as functions returning `Option`, `none` standing for the
exception the Python wrapper catches.
-/

/-- The `Assignment` dataclass (src/main.py lines 12-17). -/
structure Assignment where
  course_name : String
  name : String
  due_at : Option String
  html_url : Option String
deriving DecidableEq, Repr

/-- A raw course record from the API. Only the fields the program consumes
are modelled (`c.get("id")`, `c.get("name")`, `c.get("course_code")`);
`none` stands for a missing key or a JSON `null`. -/
structure RawCourse where
  id : Option Int
  name : Option String
  course_code : Option String
deriving DecidableEq, Repr

/-- A raw assignment record from the API. Only `item.get("name")`,
`item.get("due_at")`, `item.get("html_url")` are consumed. -/
structure RawAssignment where
  name : Option String
  due_at : Option String
  html_url : Option String
deriving DecidableEq, Repr

/-- Python truthiness of an optional string (`None`, missing key, and `""`
are falsy). -/
def strTruthy : Option String → Bool
  | none => false
  | some s => s ≠ ""

/-- Python truthiness of an optional integer (`None`, missing key, and `0`
are falsy). -/
def intTruthy : Option Int → Bool
  | none => false
  | some i => i ≠ 0

/-- Python `x or y` on an optional string `x` with a string default `y`:
yields `x`'s value when it is truthy, else `y`. -/
def pyOr (x : Option String) (y : String) : String :=
  match x with
  | none => y
  | some s => if s = "" then y else s

/-- One HTTP response as `paginate` sees it: the decoded JSON page
(`response.json()`) and the follow-up URL from the `next` link relation
(`response.links.get("next", {}).get("url")`), `none` when the relation or
its URL is missing. -/
structure PageResponse (α : Type) where
  body : List α
  nextUrl : Option String
deriving DecidableEq, Repr

/-- Embeds `paginate` (src/main.py lines 34-41). The loop `while url:` issues
a GET, yields the decoded page, and continues with the `next` link URL and
empty params; a missing `next` relation (or an empty URL, which is falsy)
ends the loop. The successive responses the server would give are passed as
a list consumed in order; an exhausted list yields nothing further, matching
a falsy URL. -/
def paginate {α : Type} : List (PageResponse α) → List (List α)
  | [] => []
  | r :: rest =>
    r.body ::
      (match r.nextUrl with
       | none => []
       | some u => if u = "" then [] else paginate rest)

/-- A canonical `N`-page paginated source: every page links to the next and
the last page carries no `next` relation. -/
def chain {α : Type} : List (List α) → List (PageResponse α)
  | [] => []
  | [p] => [⟨p, none⟩]
  | p :: q :: rest => ⟨p, some "next"⟩ :: chain (q :: rest)

/-- Embeds `parse_due_at` (src/main.py lines 77-83). `fmt` abstracts
`date_parser.isoparse(s).astimezone().strftime("%Y-%m-%d %H:%M %Z")`:
`some r` is the rendered local-time display string, `none` the
`ValueError`/`TypeError` the handler catches. A falsy input (`None` or `""`)
returns `None`; a parse failure returns the original string unchanged. -/
def parse_due_at (fmt : String → Option String) (due_at : Option String) :
    Option String :=
  match due_at with
  | none => none
  | some s =>
    if s = "" then none
    else
      match fmt s with
      | some r => some r
      | none => some s

/-- The id→course lookup of `collect_assignments` (src/main.py line 89):
`{c["id"]: c for c in courses if c.get("id")}` keeps only courses with a
truthy `id`, later entries overwriting earlier ones, then `.get(course_id)`.
-/
def course_map (courses : List RawCourse) (course_id : Int) :
    Option RawCourse :=
  ((courses.filter (fun c => intTruthy c.id)).reverse).find?
    (fun c => c.id = some course_id)

/-- The per-record mapping of `collect_assignments` (src/main.py
lines 95-103): field fallbacks `course.get("name") or
course.get("course_code") or f"Course \x7bcourse_id\x7d"` and
`item.get("name") or "Untitled"`, with `parse_due_at` on `due_at`. -/
def mkAssignment (fmt : String → Option String) (course : RawCourse)
    (course_id : Int) (item : RawAssignment) : Assignment :=
  { course_name :=
      pyOr course.name (pyOr course.course_code ("Course " ++ toString course_id))
    name := pyOr item.name "Untitled"
    due_at := parse_due_at fmt item.due_at
    html_url := item.html_url }

/-- Embeds `collect_assignments` (src/main.py lines 86-105). The fetched
course list and the per-course assignment fetch are passed as data
(`courses`, `fetchA`), abstracting the network. Ids are processed in caller
order; an id absent from the lookup is skipped (`if not course: continue`);
each raw record is appended in upstream order. -/
def collect_assignments (fmt : String → Option String)
    (courses : List RawCourse) (fetchA : Int → List RawAssignment)
    (selected_course_ids : List Int) : List Assignment :=
  match selected_course_ids with
  | [] => []
  | course_id :: rest =>
    (match course_map courses course_id with
     | none => []
     | some course => (fetchA course_id).map (mkAssignment fmt course course_id))
      ++ collect_assignments fmt courses fetchA rest

/-- The bullet line of `format_output` (src/main.py lines 121-123):
`• <name> — <due_at or "No due date">[ (<html_url>)]`. -/
def bulletLine (a : Assignment) : String :=
  "• " ++ a.name ++ " — " ++ pyOr a.due_at "No due date" ++
    (match a.html_url with
     | none => ""
     | some u => if u = "" then "" else " (" ++ u ++ ")")

/-- The loop of `format_output` (src/main.py lines 113-123): walks the list
carrying the `current_course` state (initially `None`); on a course change it
emits a blank line, the course name, and a dash underline of the same length,
then the bullet line. -/
def formatLines : Option String → List Assignment → List String
  | _, [] => []
  | current_course, a :: rest =>
    if some a.course_name = current_course then
      bulletLine a :: formatLines current_course rest
    else
      "" :: a.course_name :: String.mk (List.replicate a.course_name.length '-') ::
        bulletLine a :: formatLines (some a.course_name) rest

/-- Python `str.lstrip()`: drop leading whitespace characters. -/
def lstrip (s : String) : String :=
  String.mk (s.toList.dropWhile Char.isWhitespace)

/-- Embeds `format_output` (src/main.py lines 109-124): empty input yields
the literal message, otherwise the joined lines with the leading blank
stripped. -/
def format_output (assignments : List Assignment) : String :=
  if assignments = [] then "No assignments found."
  else lstrip (String.intercalate "\n" (formatLines none assignments))

/-- A calendar event as `create_ics` builds it (src/main.py lines 183-189);
`DT` abstracts the datetime type returned by `date_parser.parse`. -/
structure IcsEvent (DT : Type) where
  name : String
  begin : DT
  url : String
  description : String
deriving DecidableEq, Repr

/-- Embeds `create_ics` (src/main.py lines 174-192) up to the file write:
the list of events added to the calendar, in input order. `pdt` abstracts
`date_parser.parse`, `none` standing for the exception the `except` catches.
An assignment with falsy `due_at` is skipped; a parse failure skips only
that assignment; otherwise an event is emitted with title, start, URL
(`html_url` or empty string) and `"Course: <course_name>"` description. -/
def create_ics {DT : Type} (pdt : String → Option DT)
    (assignments : List Assignment) : List (IcsEvent DT) :=
  match assignments with
  | [] => []
  | a :: rest =>
    match a.due_at with
    | none => create_ics pdt rest
    | some s =>
      if s = "" then create_ics pdt rest
      else
        match pdt s with
        | none => create_ics pdt rest
        | some dt =>
          { name := a.name, begin := dt, url := pyOr a.html_url ""
            description := "Course: " ++ a.course_name } :: create_ics pdt rest

/-- The exception message of the top-level `except requests.HTTPError`
handler (src/main.py line 210): `Exception("API request failed: \x7berr\x7d")`
— a plain string, not an f-string, so the text is independent of the caught
error `err`. -/
def http_error_message (err : String) : String :=
  let _ := err
  "API request failed: \x7berr\x7d"

/-- The external inputs of `main` (src/main.py lines 195-222): the course
list the API returns, the per-course assignment fetch, the two abstracted
date parsers, the selection provider's answers, and an optional underlying
HTTP error detail (`some detail` when a request raises
`requests.HTTPError` with that message). -/
structure MainEnv (DT : Type) where
  httpError : Option String
  courses : List RawCourse
  fetchA : Int → List RawAssignment
  fmt : String → Option String
  pdt : String → Option DT
  selectedCourseIds : List Int
  exportMode : String
  chosenIdxs : List Nat

/-- The observable outcome of `main`: either an uncaught exception with its
message, or a process exit with a code, the lines printed to stdout in
order, and the event list written to `assignments.ics` (`none` when no file
was written). -/
inductive MainResult (DT : Type) where
  | raised (msg : String)
  | exit (code : Int) (printed : List String) (events : Option (List (IcsEvent DT)))
deriving DecidableEq

/-- Embeds the control flow of `main` (src/main.py lines 195-222). An HTTP
failure inside the `try` block is re-raised as
`Exception("API request failed: \x7berr\x7d")`; an empty course list prints
`"No courses found."` and returns 1; an empty course selection returns 0
with nothing printed; otherwise the formatted assignment text is printed
and, in `"select"` mode, an empty assignment choice prints
`"No assignment selected. Exiting."` and returns 0, else the chosen (or
all) assignments are exported. `prompt_assignment_selection`
(src/main.py lines 154-172) maps chosen indices back to records; the
provider only returns valid indices. -/
def main_model {DT : Type} (env : MainEnv DT) : MainResult DT :=
  match env.httpError with
  | some detail => .raised (http_error_message detail)
  | none =>
    if env.courses = [] then .exit 1 ["No courses found."] none
    else if env.selectedCourseIds = [] then .exit 0 [] none
    else
      let assignments :=
        collect_assignments env.fmt env.courses env.fetchA env.selectedCourseIds
      if env.exportMode = "select" then
        let chosen := env.chosenIdxs.filterMap (fun i => assignments.get? i)
        if chosen = [] then
          .exit 0 [format_output assignments, "No assignment selected. Exiting."] none
        else
          .exit 0 [format_output assignments, "\nCreated calendar file: assignments.ics"]
            (some (create_ics env.pdt chosen))
      else
        .exit 0 [format_output assignments, "\nCreated calendar file: assignments.ics"]
          (some (create_ics env.pdt assignments))

/-! ## Concrete example inputs used by witnesses -/

/-- A fetched course with id 1. -/
def exCourse : RawCourse := ⟨some 1, some "Math", none⟩

/-- A one-course fetch result. -/
def exCourses : List RawCourse := [exCourse]

/-- A fetch result that also contains records with falsy ids (`0` and
missing). -/
def exCoursesFalsy : List RawCourse :=
  [⟨some 0, some "Ghost", none⟩, ⟨none, some "NoId", none⟩, exCourse]

/-- A display formatter that fails on every input. -/
def exFmt : String → Option String := fun _ => none

/-- A per-course fetch serving two raw records for course 1. -/
def exFetch : Int → List RawAssignment :=
  fun cid =>
    if cid = 1 then
      [⟨none, some "bad-date", none⟩, ⟨some "HW2", none, some "http://x"⟩]
    else []

/-! ## Helper lemmas -/

/-- Draining `paginate` over the canonical chained source returns exactly
its pages. -/
theorem paginate_chain_eq {α : Type} :
    ∀ pages : List (List α), paginate (chain pages) = pages
  | [] => rfl
  | [_] => rfl
  | p :: q :: rest => by
    have ih := paginate_chain_eq (q :: rest)
    simp only [chain, paginate, ih]
    simp

/-- `pyOr` with a non-empty default is non-empty. -/
theorem pyOr_ne_empty (x : Option String) (y : String) (hy : y ≠ "") :
    pyOr x y ≠ "" := by
  cases x with
  | none => simpa [pyOr] using hy
  | some s =>
    by_cases hs : s = "" <;> simp [pyOr, hs, hy]

/-- Appending to `"Course "` never yields the empty string. -/
theorem course_prefix_ne_empty (t : String) : ("Course " ++ t) ≠ "" := by
  intro h
  have hlen : ("Course " ++ t).length = 0 := by rw [h]; rfl
  rw [String.length_append] at hlen
  have h7 : ("Course " : String).length = 7 := rfl
  rw [h7] at hlen
  omega

/-- Case analysis on `parse_due_at`: absent, formatted, or passed through. -/
theorem parse_due_at_cases (fmt : String → Option String) (d : Option String) :
    parse_due_at fmt d = none ∨
      (∃ s r, d = some s ∧ s ≠ "" ∧ fmt s = some r ∧
        parse_due_at fmt d = some r) ∨
      (∃ s, d = some s ∧ s ≠ "" ∧ fmt s = none ∧
        parse_due_at fmt d = some s) := by
  cases d with
  | none => exact Or.inl rfl
  | some s =>
    by_cases hs : s = ""
    · exact Or.inl (by simp [parse_due_at, hs])
    · cases hf : fmt s with
      | none => exact Or.inr (Or.inr ⟨s, rfl, hs, hf, by simp [parse_due_at, hs, hf]⟩)
      | some r => exact Or.inr (Or.inl ⟨s, r, rfl, hs, hf, by simp [parse_due_at, hs, hf]⟩)

/-- Every record built by `mkAssignment` has non-empty names and a
`parse_due_at` result for its `due_at`. -/
theorem mkAssignment_fields (fmt : String → Option String) (course : RawCourse)
    (cid : Int) (item : RawAssignment) :
    (mkAssignment fmt course cid item).course_name ≠ "" ∧
      (mkAssignment fmt course cid item).name ≠ "" ∧
      (mkAssignment fmt course cid item).due_at = parse_due_at fmt item.due_at := by
  refine ⟨?_, ?_, rfl⟩
  · exact pyOr_ne_empty _ _ (pyOr_ne_empty _ _ (course_prefix_ne_empty _))
  · exact pyOr_ne_empty _ _ (by decide)

/-- Every assignment collected comes from `mkAssignment` applied to some
fetched course and raw record. -/
theorem collect_assignments_mem (fmt : String → Option String)
    (courses : List RawCourse) (fetchA : Int → List RawAssignment) :
    ∀ (ids : List Int) (a : Assignment),
      a ∈ collect_assignments fmt courses fetchA ids →
      ∃ cid course item, course_map courses cid = some course ∧
        item ∈ fetchA cid ∧ a = mkAssignment fmt course cid item
  | [], a, ha => absurd ha (by simp [collect_assignments])
  | cid :: rest, a, ha => by
    rw [collect_assignments, List.mem_append] at ha
    rcases ha with ha | ha
    · cases hc : course_map courses cid with
      | none => rw [hc] at ha; exact absurd ha (by simp)
      | some course =>
        rw [hc] at ha
        rcases List.mem_map.mp ha with ⟨item, hitem, heq⟩
        exact ⟨cid, course, item, hc, hitem, heq.symm⟩
    · exact collect_assignments_mem fmt courses fetchA rest a ha

/-- If a `course_map` lookup succeeds, the record's `id` is the looked-up
id and that id is truthy. -/
theorem course_map_sound (courses : List RawCourse) (cid : Int) (c : RawCourse)
    (h : course_map courses cid = some c) : c.id = some cid ∧ cid ≠ 0 := by
  unfold course_map at h
  have hp := List.find?_some h
  have hm := List.mem_of_find?_eq_some h
  rw [List.mem_reverse, List.mem_filter] at hm
  have hid : c.id = some cid := of_decide_eq_true hp
  have ht : intTruthy c.id = true := hm.2
  rw [hid] at ht
  have : cid ≠ 0 := by simpa [intTruthy] using ht
  exact ⟨hid, this⟩

/-! ## Claim theorems -/

/-- C2: `paginate` yields exactly the `N` pages of a chained source whose
last page has no `next` relation, for every `N` (the empty response list
models `N = 0`); against a response with no `next` relation it stops after
that one page no matter what the server could serve later, with no page
cap. -/
theorem paginate_yields_all_pages_and_terminates {α : Type} :
    (∀ pages : List (List α),
      paginate (chain pages) = pages ∧
        (paginate (chain pages)).length = pages.length) ∧
    (∀ (r : PageResponse α) (rest : List (PageResponse α)),
      r.nextUrl = none → paginate (r :: rest) = [r.body]) ∧
    paginate ([] : List (PageResponse α)) = [] := by
  refine ⟨fun pages => ⟨paginate_chain_eq pages, by rw [paginate_chain_eq]⟩,
    fun r rest h => ?_, rfl⟩
  cases r with
  | mk body nextUrl => cases h; rfl

/-- Witness for C2 at concrete sources: three chained pages (`N = 3`), the
empty source (`N = 0`), a single page (`N = 1`), and a server that never
emits a `next` relation even though more responses are queued. -/
theorem paginate_yields_all_pages_and_terminates_witness :
    paginate (chain [[1], [2], [3]]) = [[1], [2], [3]] ∧
    paginate (chain ([] : List (List Nat))) = [] ∧
    paginate (chain [[5]]) = [[5]] ∧
    paginate [(⟨[7], none⟩ : PageResponse Nat), ⟨[8], some "u"⟩] = [[7]] :=
  ⟨(paginate_yields_all_pages_and_terminates.1 [[1], [2], [3]]).1,
    (paginate_yields_all_pages_and_terminates.1 []).1,
    (paginate_yields_all_pages_and_terminates.1 [[5]]).1,
    paginate_yields_all_pages_and_terminates.2.1 ⟨[7], none⟩ [⟨[8], some "u"⟩] rfl⟩

/-- C3: `parse_due_at` is total: null or empty input gives `none`; a
non-empty input either comes back reformatted by the display renderer or,
on parse failure, unchanged; in every case the result is one of these three
shapes — there is no error outcome. -/
theorem parse_due_at_is_total (fmt : String → Option String) (d : Option String) :
    ((d = none ∨ d = some "") → parse_due_at fmt d = none) ∧
    (∀ s, d = some s → s ≠ "" →
      ((∃ r, fmt s = some r ∧ parse_due_at fmt d = some r) ∨
        (fmt s = none ∧ parse_due_at fmt d = some s))) ∧
    (parse_due_at fmt d = none ∨ parse_due_at fmt d = d ∨
      ∃ s r, d = some s ∧ fmt s = some r ∧ parse_due_at fmt d = some r) := by
  refine ⟨fun h => ?_, fun s hd hs => ?_, ?_⟩
  · rcases h with h | h <;> subst h <;> simp [parse_due_at]
  · subst hd
    cases hf : fmt s with
    | none => exact Or.inr ⟨rfl, by simp [parse_due_at, hs, hf]⟩
    | some r => exact Or.inl ⟨r, rfl, by simp [parse_due_at, hs, hf]⟩
  · rcases parse_due_at_cases fmt d with h | ⟨s, r, hd, _, hf, h⟩ | ⟨s, hd, _, _, h⟩
    · exact Or.inl h
    · exact Or.inr (Or.inr ⟨s, r, hd, hf, h⟩)
    · exact Or.inr (Or.inl (h.trans hd.symm))

/-- Witness for C3 with a formatter that accepts exactly the string
`"2024-01-02T03:04:05Z"`: null and empty inputs give `none`, the accepted
string is reformatted, and an unparseable string passes through unchanged.
-/
theorem parse_due_at_is_total_witness :
    parse_due_at
        (fun s => if s = "2024-01-02T03:04:05Z" then some "2024-01-02 03:04 UTC" else none)
        none = none ∧
    parse_due_at
        (fun s => if s = "2024-01-02T03:04:05Z" then some "2024-01-02 03:04 UTC" else none)
        (some "") = none ∧
    (∃ r, (fun s => if s = "2024-01-02T03:04:05Z" then some "2024-01-02 03:04 UTC" else none)
          "2024-01-02T03:04:05Z" = some r ∧
      parse_due_at
        (fun s => if s = "2024-01-02T03:04:05Z" then some "2024-01-02 03:04 UTC" else none)
        (some "2024-01-02T03:04:05Z") = some r) ∧
    parse_due_at
        (fun s => if s = "2024-01-02T03:04:05Z" then some "2024-01-02 03:04 UTC" else none)
        (some "garbage") = some "garbage" := by
  refine ⟨(parse_due_at_is_total _ _).1 (Or.inl rfl),
    (parse_due_at_is_total _ _).1 (Or.inr rfl), ?_, ?_⟩
  · rcases (parse_due_at_is_total
        (fun s => if s = "2024-01-02T03:04:05Z" then some "2024-01-02 03:04 UTC" else none)
        (some "2024-01-02T03:04:05Z")).2.1 _ rfl (by decide) with ⟨r, hr, h⟩ | ⟨hf, _⟩
    · exact ⟨r, hr, h⟩
    · rw [if_pos rfl] at hf
      exact Option.noConfusion hf
  · rcases (parse_due_at_is_total
        (fun s => if s = "2024-01-02T03:04:05Z" then some "2024-01-02 03:04 UTC" else none)
        (some "garbage")).2.1 _ rfl (by decide) with ⟨r, hr, _⟩ | ⟨_, h⟩
    · rw [if_neg (by decide)] at hr
      exact Option.noConfusion hr
    · exact h

/-- C8: the exception raised by the top-level HTTP-error handler has the
constant message `"API request failed: \x7berr\x7d"`, containing the literal
placeholder text and independent of the underlying error detail, which is
therefore swallowed. -/
theorem http_error_message_swallows_detail {DT : Type} (env : MainEnv DT)
    (detail : String) (h : env.httpError = some detail) :
    main_model env = MainResult.raised "API request failed: \x7berr\x7d" ∧
    (∀ d₁ d₂ : String, http_error_message d₁ = http_error_message d₂) ∧
    http_error_message detail = "API request failed: " ++ "\x7berr\x7d" := by
  refine ⟨?_, fun d₁ d₂ => rfl, ?_⟩
  · simp [main_model, h, http_error_message]
  · have h0 : http_error_message detail = "API request failed: \x7berr\x7d" := rfl
    rw [h0]
    decide

/-- Witness for C8: a failing request whose real detail is
`"503 Server Error"` still raises the placeholder text. -/
theorem http_error_message_swallows_detail_witness :
    @main_model Unit
        { httpError := some "503 Server Error", courses := [],
          fetchA := fun _ => [], fmt := fun _ => none, pdt := fun _ => none,
          selectedCourseIds := [], exportMode := "all", chosenIdxs := [] } =
      MainResult.raised "API request failed: \x7berr\x7d" :=
  (http_error_message_swallows_detail _ "503 Server Error" rfl).1

/-- C1: every `Assignment` built by `collect_assignments` has a non-empty
`course_name` and a non-empty `name`, and its `due_at` is either absent, a
string rendered by the display formatter, or the original string passed
through on parse failure — there is no exceptional outcome from date
handling. -/
theorem collect_assignments_invariant (fmt : String → Option String)
    (courses : List RawCourse) (fetchA : Int → List RawAssignment)
    (ids : List Int) (a : Assignment)
    (ha : a ∈ collect_assignments fmt courses fetchA ids) :
    a.course_name ≠ "" ∧ a.name ≠ "" ∧
      (a.due_at = none ∨
        (∃ s r, s ≠ "" ∧ fmt s = some r ∧ a.due_at = some r) ∨
        (∃ s, s ≠ "" ∧ fmt s = none ∧ a.due_at = some s)) := by
  rcases collect_assignments_mem fmt courses fetchA ids a ha with
    ⟨cid, course, item, _, _, rfl⟩
  obtain ⟨h1, h2, h3⟩ := mkAssignment_fields fmt course cid item
  refine ⟨h1, h2, ?_⟩
  rw [h3]
  rcases parse_due_at_cases fmt item.due_at with h | ⟨s, r, _, hs, hf, h⟩ | ⟨s, _, hs, hf, h⟩
  · exact Or.inl h
  · exact Or.inr (Or.inl ⟨s, r, hs, hf, h⟩)
  · exact Or.inr (Or.inr ⟨s, hs, hf, h⟩)

/-- Witness for C1: the record collected for course 1 from a raw record
with no `name` and an unparseable `due_at` satisfies the invariant. -/
theorem collect_assignments_invariant_witness :
    ({ course_name := "Math", name := "Untitled", due_at := some "bad-date",
        html_url := none } : Assignment).course_name ≠ "" ∧
      ({ course_name := "Math", name := "Untitled", due_at := some "bad-date",
          html_url := none } : Assignment).name ≠ "" ∧
      (({ course_name := "Math", name := "Untitled", due_at := some "bad-date",
          html_url := none } : Assignment).due_at = none ∨
        (∃ s r, s ≠ "" ∧ exFmt s = some r ∧
          ({ course_name := "Math", name := "Untitled", due_at := some "bad-date",
              html_url := none } : Assignment).due_at = some r) ∨
        (∃ s, s ≠ "" ∧ exFmt s = none ∧
          ({ course_name := "Math", name := "Untitled", due_at := some "bad-date",
              html_url := none } : Assignment).due_at = some s)) :=
  collect_assignments_invariant exFmt exCourses exFetch [1] _ (by decide)

/-- C4: `collect_assignments` processes selected ids in caller order (the
output for a concatenation of selections is the concatenation of the
outputs), silently skips an id absent from the course lookup, and for a
found id emits exactly the upstream fetch mapped record-by-record in
upstream order — so multiplicity is preserved and nothing is deduplicated.
-/
theorem collect_assignments_order (fmt : String → Option String)
    (courses : List RawCourse) (fetchA : Int → List RawAssignment) :
    (∀ cid rest, course_map courses cid = none →
      collect_assignments fmt courses fetchA (cid :: rest) =
        collect_assignments fmt courses fetchA rest) ∧
    (∀ ids₁ ids₂,
      collect_assignments fmt courses fetchA (ids₁ ++ ids₂) =
        collect_assignments fmt courses fetchA ids₁ ++
          collect_assignments fmt courses fetchA ids₂) ∧
    (∀ cid course, course_map courses cid = some course →
      collect_assignments fmt courses fetchA [cid] =
        (fetchA cid).map (mkAssignment fmt course cid)) ∧
    (∀ cid course, course_map courses cid = some course →
      (collect_assignments fmt courses fetchA [cid]).length =
        (fetchA cid).length) := by
  have hcons : ∀ ids₁ ids₂,
      collect_assignments fmt courses fetchA (ids₁ ++ ids₂) =
        collect_assignments fmt courses fetchA ids₁ ++
          collect_assignments fmt courses fetchA ids₂ := by
    intro ids₁ ids₂
    induction ids₁ with
    | nil => simp [collect_assignments]
    | cons c cs ih =>
      rw [List.cons_append]
      simp only [collect_assignments]
      rw [ih, List.append_assoc]
  refine ⟨fun cid rest h => ?_, hcons, fun cid course h => ?_, fun cid course h => ?_⟩
  · simp [collect_assignments, h]
  · simp [collect_assignments, h]
  · simp [collect_assignments, h]

/-- Witness for C4 on concrete data: id 2 is not in the lookup and is
skipped, selection order concatenates, and the single found course yields
the mapped upstream list of length 2. -/
theorem collect_assignments_order_witness :
    collect_assignments exFmt exCourses exFetch [2, 1] =
      collect_assignments exFmt exCourses exFetch [1] ∧
    collect_assignments exFmt exCourses exFetch ([1] ++ [2]) =
      collect_assignments exFmt exCourses exFetch [1] ++
        collect_assignments exFmt exCourses exFetch [2] ∧
    collect_assignments exFmt exCourses exFetch [1] =
      (exFetch 1).map (mkAssignment exFmt exCourse 1) ∧
    (collect_assignments exFmt exCourses exFetch [1]).length =
      (exFetch 1).length :=
  ⟨(collect_assignments_order exFmt exCourses exFetch).1 2 [1] (by decide),
    (collect_assignments_order exFmt exCourses exFetch).2.1 [1] [2],
    (collect_assignments_order exFmt exCourses exFetch).2.2.1 1 exCourse (by decide),
    (collect_assignments_order exFmt exCourses exFetch).2.2.2 1 exCourse (by decide)⟩

/-- C7: the field-fallback rules of the record mapper: a raw record with no
`name` gets `"Untitled"`; a course with neither `name` nor `course_code`
gets the synthetic `"Course <id>"`; a truthy course `name` wins over
everything, and a truthy `course_code` wins over the synthetic form. -/
theorem field_fallback_defaults (fmt : String → Option String)
    (course : RawCourse) (cid : Int) (item : RawAssignment) :
    (item.name = none → (mkAssignment fmt course cid item).name = "Untitled") ∧
    (course.name = none → course.course_code = none →
      (mkAssignment fmt course cid item).course_name =
        "Course " ++ toString cid) ∧
    (∀ n, course.name = some n → n ≠ "" →
      (mkAssignment fmt course cid item).course_name = n) ∧
    (∀ cc, (course.name = none ∨ course.name = some "") →
      course.course_code = some cc → cc ≠ "" →
      (mkAssignment fmt course cid item).course_name = cc) := by
  refine ⟨fun h => ?_, fun h1 h2 => ?_, fun n hn hne => ?_, fun cc h1 h2 hne => ?_⟩
  · simp [mkAssignment, pyOr, h]
  · simp [mkAssignment, pyOr, h1, h2]
  · simp [mkAssignment, pyOr, hn, hne]
  · rcases h1 with h1 | h1 <;> simp [mkAssignment, pyOr, h1, h2, hne]

/-- Witness for C7 at concrete records: missing name gives `"Untitled"`,
a bare course gives `"Course 1"`, a named course gives its name, and a
code-only course gives its code. -/
theorem field_fallback_defaults_witness :
    (mkAssignment exFmt ⟨some 1, none, none⟩ 1 ⟨none, none, none⟩).name =
        "Untitled" ∧
    (mkAssignment exFmt ⟨some 1, none, none⟩ 1 ⟨none, none, none⟩).course_name =
        "Course " ++ toString (1 : Int) ∧
    (mkAssignment exFmt ⟨some 1, some "Math", some "M101"⟩ 1
        ⟨none, none, none⟩).course_name = "Math" ∧
    (mkAssignment exFmt ⟨some 1, none, some "M101"⟩ 1
        ⟨none, none, none⟩).course_name = "M101" :=
  ⟨(field_fallback_defaults exFmt ⟨some 1, none, none⟩ 1 ⟨none, none, none⟩).1 rfl,
    (field_fallback_defaults exFmt ⟨some 1, none, none⟩ 1 ⟨none, none, none⟩).2.1 rfl rfl,
    (field_fallback_defaults exFmt ⟨some 1, some "Math", some "M101"⟩ 1
      ⟨none, none, none⟩).2.2.1 "Math" rfl (by decide),
    (field_fallback_defaults exFmt ⟨some 1, none, some "M101"⟩ 1
      ⟨none, none, none⟩).2.2.2 "M101" (Or.inl rfl) rfl (by decide)⟩

/-- C10: the id→course lookup only ever returns a record whose `id` is
truthy and equal to the looked-up id; looking up id 0 always fails, and a
selected id 0 is skipped, contributing no assignments. -/
theorem course_map_excludes_falsy_ids (courses : List RawCourse) :
    (∀ cid c, course_map courses cid = some c →
      intTruthy c.id = true ∧ c.id = some cid) ∧
    course_map courses 0 = none ∧
    (∀ (fmt : String → Option String) (fetchA : Int → List RawAssignment) rest,
      collect_assignments fmt courses fetchA (0 :: rest) =
        collect_assignments fmt courses fetchA rest) := by
  have h0 : course_map courses 0 = none := by
    cases h : course_map courses 0 with
    | none => rfl
    | some c => exact absurd rfl (course_map_sound courses 0 c h).2
  refine ⟨fun cid c h => ?_, h0, fun fmt fetchA rest => ?_⟩
  · obtain ⟨hid, hne⟩ := course_map_sound courses cid c h
    refine ⟨?_, hid⟩
    rw [hid]
    simpa [intTruthy] using hne
  · simp [collect_assignments, h0]

/-- Witness for C10: with records of id 0 and of missing id in the fetch
result, looking up 0 fails, a successful lookup of id 1 returns the truthy
record, and selecting id 0 yields no assignments. -/
theorem course_map_excludes_falsy_ids_witness :
    course_map exCoursesFalsy 0 = none ∧
    (intTruthy exCourse.id = true ∧ exCourse.id = some 1) ∧
    collect_assignments exFmt exCoursesFalsy exFetch [0] =
      collect_assignments exFmt exCoursesFalsy exFetch [] :=
  ⟨(course_map_excludes_falsy_ids exCoursesFalsy).2.1,
    (course_map_excludes_falsy_ids exCoursesFalsy).1 1 exCourse (by decide),
    (course_map_excludes_falsy_ids exCoursesFalsy).2.2 exFmt exFetch []⟩

/-- C5: `create_ics` emits one event — title the assignment name, start the
parsed datetime, URL the `html_url` or empty string, description
`"Course: <course_name>"` — for each assignment whose `due_at` is present
(truthy) and parseable, skips exactly the assignments whose `due_at` is
absent or unparseable, and on any input (in particular when everything is
skipped) still produces a calendar event list, possibly empty. -/
theorem create_ics_skips_and_emits {DT : Type} (pdt : String → Option DT) :
    create_ics pdt [] = [] ∧
    (∀ (a : Assignment) rest, (a.due_at = none ∨ a.due_at = some "") →
      create_ics pdt (a :: rest) = create_ics pdt rest) ∧
    (∀ (a : Assignment) rest s, a.due_at = some s → s ≠ "" → pdt s = none →
      create_ics pdt (a :: rest) = create_ics pdt rest) ∧
    (∀ (a : Assignment) rest s dt, a.due_at = some s → s ≠ "" → pdt s = some dt →
      create_ics pdt (a :: rest) =
        { name := a.name, begin := dt, url := pyOr a.html_url "",
            description := "Course: " ++ a.course_name } :: create_ics pdt rest) ∧
    (∀ assignments : List Assignment, (∀ a ∈ assignments, a.due_at = none) →
      create_ics pdt assignments = []) := by
  refine ⟨rfl, fun a rest h => ?_, fun a rest s hs hne hp => ?_,
    fun a rest s dt hs hne hp => ?_, fun assignments h => ?_⟩
  · rcases h with h | h <;> simp [create_ics, h]
  · simp [create_ics, hs, hne, hp]
  · simp [create_ics, hs, hne, hp]
  · induction assignments with
    | nil => rfl
    | cons a rest ih =>
      have ha := h a (List.mem_cons_self a rest)
      have h' : ∀ b ∈ rest, b.due_at = none := fun b hb => h b (List.mem_cons_of_mem a hb)
      simp [create_ics, ha, ih h']

/-- Witness for C5 on a four-element list over `DT = Nat` with a parser
accepting only `"2024-01-02"`: the absent, empty and unparseable `due_at`s
are skipped, the parseable one becomes the single event, and an all-absent
list gives the empty calendar. -/
theorem create_ics_skips_and_emits_witness :
    create_ics (fun s => if s = "2024-01-02" then some 42 else none)
        [⟨"Math", "HW1", none, none⟩] =
      create_ics (fun s => if s = "2024-01-02" then some 42 else none) [] ∧
    create_ics (fun s => if s = "2024-01-02" then some 42 else none)
        [⟨"Math", "HW2", some "junk", some "http://x"⟩] =
      create_ics (fun s => if s = "2024-01-02" then some 42 else none) [] ∧
    create_ics (fun s => if s = "2024-01-02" then some 42 else none)
        [⟨"Math", "HW3", some "2024-01-02", some "http://x"⟩] =
      ({ name := "HW3", begin := 42, url := pyOr (some "http://x") "",
          description := "Course: " ++ "Math" } : IcsEvent Nat) ::
        create_ics (fun s => if s = "2024-01-02" then some 42 else none) [] ∧
    create_ics (fun s => if s = "2024-01-02" then some 42 else none)
        [⟨"Math", "HW1", none, none⟩, ⟨"Art", "P1", none, none⟩] = [] :=
  ⟨(create_ics_skips_and_emits (fun s => if s = "2024-01-02" then some 42 else none)).2.1
      ⟨"Math", "HW1", none, none⟩ [] (Or.inl rfl),
    (create_ics_skips_and_emits (fun s => if s = "2024-01-02" then some 42 else none)).2.2.1
      ⟨"Math", "HW2", some "junk", some "http://x"⟩ [] "junk" rfl (by decide) (by decide),
    (create_ics_skips_and_emits (fun s => if s = "2024-01-02" then some 42 else none)).2.2.2.1
      ⟨"Math", "HW3", some "2024-01-02", some "http://x"⟩ [] "2024-01-02" 42 rfl
      (by decide) (by decide),
    (create_ics_skips_and_emits (fun s => if s = "2024-01-02" then some 42 else none)).2.2.2.2
      [⟨"Math", "HW1", none, none⟩, ⟨"Art", "P1", none, none⟩] (by decide)⟩

/-- C6: `format_output` maps the empty list to the literal
`"No assignments found."`; otherwise it joins the generated lines and trims
the leading blank; the line generator starts a new group — blank line,
header, matching-length underline — exactly when the course name differs
from the previous one (adjacency, not global identity), and bullets each
assignment as `• <name> — <due or "No due date">[ (<url>)]`; on the
interleaved Math/Art/Math input each contiguous run gets its own header. -/
theorem format_output_grouping :
    format_output [] = "No assignments found." ∧
    (∀ (a : Assignment) rest, format_output (a :: rest) =
      lstrip (String.intercalate "\n" (formatLines none (a :: rest)))) ∧
    (∀ cur (a : Assignment) rest, some a.course_name = cur →
      formatLines cur (a :: rest) = bulletLine a :: formatLines cur rest) ∧
    (∀ cur (a : Assignment) rest, some a.course_name ≠ cur →
      formatLines cur (a :: rest) =
        "" :: a.course_name ::
          String.mk (List.replicate a.course_name.length '-') ::
          bulletLine a :: formatLines (some a.course_name) rest) ∧
    (∀ a : Assignment, bulletLine a =
      "• " ++ a.name ++ " — " ++ pyOr a.due_at "No due date" ++
        (match a.html_url with
         | none => ""
         | some u => if u = "" then "" else " (" ++ u ++ ")")) ∧
    format_output
        [⟨"Math", "HW1", none, none⟩, ⟨"Math", "HW2", none, none⟩,
          ⟨"Art", "Proj1", none, none⟩] =
      "Math\n----\n• HW1 — No due date\n• HW2 — No due date\n\nArt\n---\n• Proj1 — No due date" ∧
    format_output
        [⟨"Math", "HW1", none, none⟩, ⟨"Art", "P", none, none⟩,
          ⟨"Math", "HW2", none, none⟩] =
      "Math\n----\n• HW1 — No due date\n\nArt\n---\n• P — No due date\n\nMath\n----\n• HW2 — No due date" := by
  refine ⟨rfl, fun a rest => ?_, fun cur a rest h => ?_, fun cur a rest h => ?_,
    fun a => rfl, by decide, by decide⟩
  · simp [format_output]
  · simp [formatLines, h]
  · simp [formatLines, h]

/-- Witness for C6: the grouping equations applied at a concrete state and
record — same course continues the run, a new course opens a header block.
-/
theorem format_output_grouping_witness :
    formatLines (some "Math") [⟨"Math", "HW2", none, none⟩] =
      bulletLine ⟨"Math", "HW2", none, none⟩ :: formatLines (some "Math") [] ∧
    formatLines (some "Math") [⟨"Art", "P", none, none⟩] =
      "" :: "Art" :: String.mk (List.replicate ("Art".length) '-') ::
        bulletLine ⟨"Art", "P", none, none⟩ :: formatLines (some "Art") [] :=
  ⟨format_output_grouping.2.2.1 (some "Math") ⟨"Math", "HW2", none, none⟩ [] rfl,
    format_output_grouping.2.2.2.1 (some "Math") ⟨"Art", "P", none, none⟩ []
      (by decide)⟩

/-- C9 counterexample: with one course fetched but no course selected, the
process exits with status 0 and prints nothing — the empty-selection
condition is not reported to the user, contrary to the claim that every
empty result is reported. -/
theorem empty_selection_unreported_counterexample :
    @main_model Unit
        { httpError := none, courses := exCourses, fetchA := fun _ => [],
          fmt := fun _ => none, pdt := fun _ => none,
          selectedCourseIds := [], exportMode := "all", chosenIdxs := [] } =
      MainResult.exit 0 [] none := by
  decide

/-- C9 (amended): empty results never raise; no courses found is reported
(`"No courses found."`) but exits with status 1; an empty course selection
exits with status 0 silently, with nothing reported; an empty assignment
selection in `"select"` mode is reported (`"No assignment selected.
Exiting."`) and exits with status 0. -/
theorem empty_results_soft_behavior {DT : Type} (env : MainEnv DT)
    (hh : env.httpError = none) :
    (env.courses = [] →
      main_model env = MainResult.exit 1 ["No courses found."] none) ∧
    (env.courses ≠ [] → env.selectedCourseIds = [] →
      main_model env = MainResult.exit 0 [] none) ∧
    (env.courses ≠ [] → env.selectedCourseIds ≠ [] →
      env.exportMode = "select" →
      env.chosenIdxs.filterMap
          (fun i => (collect_assignments env.fmt env.courses env.fetchA
            env.selectedCourseIds).get? i) = [] →
      main_model env =
        MainResult.exit 0
          [format_output (collect_assignments env.fmt env.courses env.fetchA
              env.selectedCourseIds),
            "No assignment selected. Exiting."] none) := by
  refine ⟨fun h1 => ?_, fun h1 h2 => ?_, fun h1 h2 h3 h4 => ?_⟩
  · simp [main_model, hh, h1]
  · simp [main_model, hh, h1, h2]
  · simp only [main_model, hh]
    rw [if_neg h1, if_neg h2, if_pos h3, if_pos h4]

/-- Witness for C9 (amended) at three concrete environments: empty course
list, empty course selection, and empty assignment selection in select
mode. -/
theorem empty_results_soft_behavior_witness :
    @main_model Unit
        { httpError := none, courses := [], fetchA := fun _ => [],
          fmt := fun _ => none, pdt := fun _ => none,
          selectedCourseIds := [], exportMode := "all", chosenIdxs := [] } =
      MainResult.exit 1 ["No courses found."] none ∧
    @main_model Unit
        { httpError := none, courses := exCourses, fetchA := fun _ => [],
          fmt := fun _ => none, pdt := fun _ => none,
          selectedCourseIds := [], exportMode := "select", chosenIdxs := [] } =
      MainResult.exit 0 [] none ∧
    @main_model Unit
        { httpError := none, courses := exCourses, fetchA := fun _ => [],
          fmt := fun _ => none, pdt := fun _ => none,
          selectedCourseIds := [1], exportMode := "select", chosenIdxs := [] } =
      MainResult.exit 0
        [format_output (collect_assignments (fun _ => none) exCourses
            (fun _ => []) [1]),
          "No assignment selected. Exiting."] none :=
  ⟨(empty_results_soft_behavior
      { httpError := none, courses := [], fetchA := fun _ => [],
        fmt := fun _ => none, pdt := fun _ => (none : Option Unit),
        selectedCourseIds := [], exportMode := "all", chosenIdxs := [] } rfl).1 rfl,
    (empty_results_soft_behavior
      { httpError := none, courses := exCourses, fetchA := fun _ => [],
        fmt := fun _ => none, pdt := fun _ => (none : Option Unit),
        selectedCourseIds := [], exportMode := "select", chosenIdxs := [] } rfl).2.1
      (by decide) rfl,
    (empty_results_soft_behavior
      { httpError := none, courses := exCourses, fetchA := fun _ => [],
        fmt := fun _ => none, pdt := fun _ => (none : Option Unit),
        selectedCourseIds := [1], exportMode := "select", chosenIdxs := [] } rfl).2.2
      (by decide) (by decide) rfl rfl⟩
